import Mathlib

/-!
Verification of the desktop-automation command layer in
`src/src-tauri/src/main.rs` (Skygen-AI/skygen-web).

The Rust file exposes six Tauri commands: screenshot capture
(`desktop_env_screenshot` / `take_screenshot_internal`), display/system
info (`desktop_env_system_info`), a fixed status string
(`desktop_env_status`), an init-flag setter (`desktop_env_init`), and two
permission requests.  The external capture provider (the `screenshots`
crate), the PNG codec of the `image` crate and the OS shell-outs are
modelled as an explicit environment record; the control flow of each
command is translated statement by statement from the source.  Bytes are
modelled as `Nat` values below 256.
-/

namespace Skygen

/-- Width and height of a display, from the capture provider's
`screen.display_info` (`u32` fields, modelled as `Nat`). -/
structure DisplayInfo where
  width : Nat
  height : Nat
deriving Repr, DecidableEq

/-- A captured frame (`screenshots::Image`): its reported `width()` and
`height()` and the raw byte buffer returned by `as_raw()`. -/
structure CapturedImage where
  width : Nat
  height : Nat
  raw : List Nat
deriving Repr, DecidableEq

/-- One display as enumerated by `screenshots::Screen::all()`: its
`display_info` together with the outcome that `screen.capture()` would
produce in the modelled environment. -/
structure Screen where
  display_info : DisplayInfo
  captureOutcome : Except String CapturedImage
deriving Repr

/-- The external world the commands interact with: the outcome of
`Screen::all()`, the PNG codec (`ImageBuffer::write_to` with
`ImageFormat::Png`, given width, height and the pixel buffer), and the
compile-time constant `std::env::consts::OS`. -/
structure Env where
  screensOutcome : Except String (List Screen)
  pngEncode : Nat → Nat → List Nat → Except String (List Nat)
  consts_OS : String

/-- Mirror of the Rust `ScreenshotResult` record (serde-serialized):
`success`, optional `screenshot_data`, optional `error`. -/
structure ScreenshotResult where
  success : Bool
  screenshot_data : Option String
  error : Option String
deriving Repr, DecidableEq

/-- Mirror of the Rust `SystemInfo` record: `platform`, `screen_width`,
`screen_height` (`u32`, modelled as `Nat`). -/
structure SystemInfo where
  platform : String
  screen_width : Nat
  screen_height : Nat
deriving Repr, DecidableEq

/-- The base64 alphabet of `base64::engine::general_purpose::STANDARD`. -/
def base64Chars : List Char :=
  String.toList "ABCDEFGHIJKLMNOPQRSTUVWXYZabcdefghijklmnopqrstuvwxyz0123456789+/"

/-- Character emitted for a 6-bit value; the out-of-range marker 64 stands
for the padding character of the standard (padded) engine. -/
def sextetToChar (n : Nat) : Char := base64Chars.getD n '='

/-- Bytes of a buffer regrouped into 6-bit values, 64 marking a padding
position, as the standard padded base64 engine does: groups of three
bytes become four sextets; a trailing group of one or two bytes is
completed with padding. -/
def encodeChunks : List Nat → List Nat
  | [] => []
  | [a] => [a / 4, a % 4 * 16, 64, 64]
  | [a, b] => [a / 4, a % 4 * 16 + b / 16, b % 16 * 4, 64]
  | a :: b :: c :: rest =>
      a / 4 :: (a % 4 * 16 + b / 16) :: (b % 16 * 4 + c / 64) :: c % 64 ::
        encodeChunks rest

/-- `general_purpose::STANDARD.encode`: regroup the bytes into sextets and
print them with the base64 alphabet, padding included; no line-wrapping,
no data-URI prefixing. -/
def base64Encode (bytes : List Nat) : String :=
  String.mk ((encodeChunks bytes).map sextetToChar)

/-- Value of a base64 character when decoding: the padding character maps
to the marker 64, an alphabet character to its index, anything else is
rejected. -/
def charToSextet (c : Char) : Option Nat :=
  if c = '=' then some 64
  else
    match base64Chars.indexOf? c with
    | some i => some i
    | none => none

/-- Decode a list of base64 characters to their sextet values, rejecting
any character outside the alphabet. -/
def decodeChars : List Char → Option (List Nat)
  | [] => some []
  | c :: cs =>
      match charToSextet c, decodeChars cs with
      | some v, some vs => some (v :: vs)
      | _, _ => none

/-- Rebuild the byte stream from sextet values (64 = padding): groups of
four sextets become three bytes; a final group may carry one or two
padding markers, yielding one or two bytes.  Malformed input (length not
a multiple of four, padding in the middle, out-of-range value) is
rejected. -/
def decodeChunks : List Nat → Option (List Nat)
  | [] => some []
  | w :: x :: y :: z :: rest =>
      if w < 64 ∧ x < 64 then
        if y = 64 ∧ z = 64 ∧ rest = [] then
          some [w * 4 + x / 16]
        else if y < 64 ∧ z = 64 ∧ rest = [] then
          some [w * 4 + x / 16, x % 16 * 16 + y / 4]
        else if y < 64 ∧ z < 64 then
          match decodeChunks rest with
          | some tail =>
              some ((w * 4 + x / 16) :: (x % 16 * 16 + y / 4) ::
                    (y % 4 * 64 + z) :: tail)
          | none => none
        else none
      else none
  | _ => none

/-- Standard (padded) base64 decoding of a text payload back to bytes. -/
def base64Decode (s : String) : Option (List Nat) :=
  match decodeChars s.toList with
  | some vs => decodeChunks vs
  | none => none

/-- Modelled from the spec: the `image` crate's
`ImageBuffer::<Rgba<u8>, Vec<u8>>::from_raw(width, height, raw)` is an
external dependency whose source is not in the repository; per the spec,
reinterpreting the raw buffer as a width×height grid of 4-byte RGBA
pixels fails exactly when the byte count differs from width×height×4. -/
def imageBufferFromRaw (width height : Nat) (raw : List Nat) :
    Option (List Nat) :=
  if raw.length = width * height * 4 then some raw else none

/-- `take_screenshot_internal`: enumerate screens (`?` with a
"Failed to get screens" message), take the first (`ok_or "No screen
found"`), capture it (`?` with a "Failed to capture screen" message),
rebuild an RGBA image buffer (`ok_or "Failed to create image buffer"`),
PNG-encode it (`?` with a "Failed to encode PNG" message), and base64
encode the PNG bytes. -/
def take_screenshot_internal (env : Env) : Except String String :=
  match env.screensOutcome with
  | .error e => .error ("Failed to get screens: " ++ e)
  | .ok screens =>
    match screens.head? with
    | none => .error "No screen found"
    | some screen =>
      match screen.captureOutcome with
      | .error e => .error ("Failed to capture screen: " ++ e)
      | .ok image =>
        match imageBufferFromRaw image.width image.height image.raw with
        | none => .error "Failed to create image buffer"
        | some buf =>
          match env.pngEncode image.width image.height buf with
          | .error e => .error ("Failed to encode PNG: " ++ e)
          | .ok png_bytes => .ok (base64Encode png_bytes)

/-- `desktop_env_screenshot`: wrap the internal capture's outcome into a
`ScreenshotResult`, returning `Ok` in both arms of the `match`. -/
def desktop_env_screenshot (env : Env) : Except String ScreenshotResult :=
  match take_screenshot_internal env with
  | .ok screenshot_data =>
      .ok { success := true, screenshot_data := some screenshot_data,
            error := none }
  | .error error =>
      .ok { success := false, screenshot_data := none,
            error := some error }

/-- `desktop_env_system_info`: enumerate screens, take the first, and
report `std::env::consts::OS` with the first display's dimensions. -/
def desktop_env_system_info (env : Env) : Except String SystemInfo :=
  match env.screensOutcome with
  | .error e => .error ("Failed to get screens: " ++ e)
  | .ok screens =>
    match screens.head? with
    | none => .error "No screen found"
    | some screen =>
      .ok { platform := env.consts_OS,
            screen_width := screen.display_info.width,
            screen_height := screen.display_info.height }

/-- `desktop_env_status`: returns a fixed string.  The Rust function
reads no state at all; the app-state argument is taken here only so that
independence from the `AppState` flag is statable, and is ignored exactly
as the source ignores it. -/
def desktop_env_status (_state : Bool) : Except String String :=
  .ok "Desktop environment is available"

/-- `desktop_env_init`: set the mutex-guarded `AppState` flag
(`initialized` in the source) to `true` and return a fixed success
string.  State passing is explicit: the result pairs the command's return
value with the new flag value. -/
def desktop_env_init (_state : Bool) : Except String String × Bool :=
  (.ok "Desktop environment initialized", true)

/-- Environment of the two permission commands: which `cfg(target_os)`
branch was compiled in, and the outcome of each possible shell-out
(`Except` error = `Command::output()` itself failed to run the process,
`ok b` = the process ran and `output.status.success()` returned `b`). -/
structure PermEnv where
  target_os_macos : Bool
  system_profiler_output : Except String Bool
  open_pref_pane_output : Except String Bool

/-- `request_screen_recording_permission`: on macOS, run
`system_profiler SPConfigurationProfileDataType` (spawn failure → `?`
with a "Failed to check permission" message; non-success exit status →
an `Err` string) and return `Ok(true)`; on every other target, return
`Ok(true)` with no shell-out.  The second component records the external
processes invoked. -/
def request_screen_recording_permission (env : PermEnv) :
    Except String Bool × List String :=
  if env.target_os_macos then
    match env.system_profiler_output with
    | .error e =>
        (.error ("Failed to check permission: " ++ e), ["system_profiler"])
    | .ok statusSuccess =>
        if !statusSuccess then
          (.error "Failed to check screen recording permission",
           ["system_profiler"])
        else (.ok true, ["system_profiler"])
  else (.ok true, [])

/-- `request_accessibility_permission`: on macOS, run
`open /System/Library/PreferencePanes/Security.prefPane` (spawn failure
→ `?` with a "Failed to open accessibility settings" message;
non-success exit status → an `Err` string) and return `Ok(true)`; on
every other target, return `Ok(true)` with no shell-out. -/
def request_accessibility_permission (env : PermEnv) :
    Except String Bool × List String :=
  if env.target_os_macos then
    match env.open_pref_pane_output with
    | .error e =>
        (.error ("Failed to open accessibility settings: " ++ e), ["open"])
    | .ok statusSuccess =>
        if !statusSuccess then
          (.error "Failed to open accessibility settings", ["open"])
        else (.ok true, ["open"])
  else (.ok true, [])


/-- A non-macOS permission environment used to instantiate theorems about
the `cfg(not(target_os = "macos"))` branch. -/
def permEnvOther : PermEnv :=
  { target_os_macos := false,
    system_profiler_output := .error "unused",
    open_pref_pane_output := .error "unused" }

/-- An environment whose display enumeration succeeds with zero
displays. -/
def envNoScreens : Env :=
  { screensOutcome := .ok [],
    pngEncode := fun _ _ _ => .error "unused",
    consts_OS := "linux" }

/-- A screen whose capture reports a 1×1 frame with a 3-byte buffer,
which cannot be reinterpreted as 1×1×4 RGBA bytes. -/
def screenMismatch : Screen :=
  { display_info := { width := 1, height := 1 },
    captureOutcome := .ok { width := 1, height := 1, raw := [0, 0, 0] } }

/-- An environment enumerating exactly `screenMismatch`. -/
def envMismatch : Env :=
  { screensOutcome := .ok [screenMismatch],
    pngEncode := fun _ _ _ => .error "unused",
    consts_OS := "linux" }

/-- A screen whose capture reports a well-formed 1×1 RGBA frame. -/
def screenOk : Screen :=
  { display_info := { width := 1, height := 1 },
    captureOutcome := .ok { width := 1, height := 1, raw := [1, 2, 3, 4] } }

/-- An environment enumerating `screenOk` whose PNG codec produces the
four-byte stream `[137, 80, 78, 71]` (the PNG signature's head). -/
def envOk : Env :=
  { screensOutcome := .ok [screenOk],
    pngEncode := fun _ _ _ => .ok [137, 80, 78, 71],
    consts_OS := "linux" }

/-- A screen whose provider-reported dimensions are zero. -/
def screenZero : Screen :=
  { display_info := { width := 0, height := 0 },
    captureOutcome := .error "unused" }

/-- An environment enumerating only the zero-sized `screenZero`. -/
def envZero : Env :=
  { screensOutcome := .ok [screenZero],
    pngEncode := fun _ _ _ => .error "unused",
    consts_OS := "linux" }

/-- The PNG-codec failure message can never coincide with the
buffer-reinterpretation failure message: they differ at character 10. -/
theorem png_error_ne_buffer_error (e : String) :
    "Failed to encode PNG: " ++ e ≠ "Failed to create image buffer" := by
  intro h
  have h10 : ("Failed to encode PNG: " ++ e).toList[10]? =
      "Failed to create image buffer".toList[10]? := by rw [h]
  have hsplit : ("Failed to encode PNG: " ++ e).toList =
      "Failed to encode PNG: ".toList ++ e.toList := by simp
  rw [hsplit, List.getElem?_append_left (by decide)] at h10
  exact absurd h10 (by decide)

theorem charToSextet_sextetToChar : ∀ n : Nat, n ≤ 64 →
    charToSextet (sextetToChar n) = some n := by decide

theorem encodeChunks_le (X : List Nat) (hX : ∀ b ∈ X, b < 256) :
    ∀ v ∈ encodeChunks X, v ≤ 64 := by
  induction X using encodeChunks.induct with
  | case1 => intro v hv; simp [encodeChunks] at hv
  | case2 a =>
      have ha := hX a (by simp)
      intro v hv
      simp [encodeChunks] at hv
      rcases hv with h | h | h | h <;> omega
  | case3 a b =>
      have ha := hX a (by simp)
      have hb := hX b (by simp)
      intro v hv
      simp [encodeChunks] at hv
      rcases hv with h | h | h | h <;> omega
  | case4 a b c rest ih =>
      have ha := hX a (by simp)
      have hb := hX b (by simp)
      have hc := hX c (by simp)
      have ih2 := ih (fun x hx => hX x (by simp [hx]))
      intro v hv
      simp [encodeChunks] at hv
      rcases hv with h | h | h | h | h
      · omega
      · omega
      · omega
      · omega
      · exact ih2 v h

theorem decode_encodeChunks (X : List Nat) (hX : ∀ b ∈ X, b < 256) :
    decodeChunks (encodeChunks X) = some X := by
  induction X using encodeChunks.induct with
  | case1 => rfl
  | case2 a =>
      have ha := hX a (by simp)
      simp only [encodeChunks, decodeChunks]
      rw [if_pos (by omega), if_pos (by exact ⟨by trivial, by trivial, by trivial⟩)]
      simp only [Option.some.injEq, List.cons.injEq, and_true]
      omega
  | case3 a b =>
      have ha := hX a (by simp)
      have hb := hX b (by simp)
      simp only [encodeChunks, decodeChunks]
      rw [if_pos (by omega), if_neg (by rintro ⟨h1, -, -⟩; omega),
          if_pos (by exact ⟨by omega, by trivial, by trivial⟩)]
      simp only [Option.some.injEq, List.cons.injEq, and_true]
      constructor
      · omega
      · omega
  | case4 a b c rest ih =>
      have ha := hX a (by simp)
      have hb := hX b (by simp)
      have hc := hX c (by simp)
      have ih2 := ih (fun x hx => hX x (by simp [hx]))
      simp only [encodeChunks, decodeChunks]
      rw [if_pos (by omega), if_neg (by rintro ⟨h1, -, -⟩; omega),
          if_neg (by rintro ⟨-, h2, -⟩; omega), if_pos (by omega)]
      rw [ih2]
      simp only [Option.some.injEq, List.cons.injEq]
      exact ⟨by omega, by omega, by omega, by trivial⟩

theorem decodeChars_map (L : List Nat) (hL : ∀ v ∈ L, v ≤ 64) :
    decodeChars (L.map sextetToChar) = some L := by
  induction L with
  | nil => rfl
  | cons v vs ih =>
      have hv := hL v (by simp)
      have ih2 := ih (fun x hx => hL x (by simp [hx]))
      simp only [List.map_cons, decodeChars, ih2,
        charToSextet_sextetToChar v hv]

theorem base64_round_trip (X : List Nat) (hX : ∀ b ∈ X, b < 256) :
    base64Decode (base64Encode X) = some X := by
  unfold base64Encode base64Decode
  have htl : (String.mk ((encodeChunks X).map sextetToChar)).toList
      = (encodeChunks X).map sextetToChar := rfl
  rw [htl, decodeChars_map _ (encodeChunks_le X hX)]
  exact decode_encodeChunks X hX

/-- C1: for every outcome of the underlying capture pipeline (display
enumeration error, empty display list, capture error, buffer
reinterpretation failure, PNG encoding error, or success),
`desktop_env_screenshot` returns a structured success/failure result to
its invoker — the command's value is `Ok` for every environment, never an
error propagated past the command boundary. -/
theorem desktop_env_screenshot_never_throws (env : Env) :
    (desktop_env_screenshot env).isOk = true := by
  unfold desktop_env_screenshot
  cases take_screenshot_internal env <;> rfl

/-- C2: if display enumeration returns an empty list,
`desktop_env_screenshot` returns (does not throw) a result with
`success = false` whose error text is "No screen found", which contains
the "no screen" indication (as a case-insensitive substring). -/
theorem desktop_env_screenshot_no_screen (env : Env)
    (h : env.screensOutcome = .ok []) :
    desktop_env_screenshot env =
      .ok { success := false, screenshot_data := none,
            error := some "No screen found" } ∧
    "no screen".toList <:+: ("No screen found".toList.map Char.toLower) := by
  constructor
  · simp only [desktop_env_screenshot, take_screenshot_internal, h,
      List.head?]
  · decide

/-- Witness for C2 at a concrete environment whose enumeration yields
zero displays. -/
theorem desktop_env_screenshot_no_screen_witness :
    desktop_env_screenshot envNoScreens =
      .ok { success := false, screenshot_data := none,
            error := some "No screen found" } ∧
    "no screen".toList <:+: ("No screen found".toList.map Char.toLower) :=
  desktop_env_screenshot_no_screen envNoScreens rfl

/-- C3: every `ScreenshotResult` returned by `desktop_env_screenshot`
has exactly one of the two optional fields populated: when `success` is
true the data field is present and the error field absent, and when
`success` is false the error field is present and the data field
absent. -/
theorem screenshot_result_exactly_one (env : Env) (r : ScreenshotResult)
    (h : desktop_env_screenshot env = .ok r) :
    (r.success = true → r.screenshot_data.isSome = true ∧ r.error = none) ∧
    (r.success = false → r.error.isSome = true ∧ r.screenshot_data = none) := by
  unfold desktop_env_screenshot at h
  cases hts : take_screenshot_internal env <;> rw [hts] at h <;>
    injection h with h <;> subst h <;> simp

/-- Witness for C3: the exclusivity conclusion instantiated at the
concrete no-display environment's failure result. -/
theorem screenshot_result_exactly_one_witness :
    ({ success := false, screenshot_data := none,
       error := some "No screen found" } : ScreenshotResult).error.isSome
      = true ∧
    ({ success := false, screenshot_data := none,
       error := some "No screen found" } : ScreenshotResult).screenshot_data
      = none :=
  (screenshot_result_exactly_one envNoScreens
    { success := false, screenshot_data := none,
      error := some "No screen found" } rfl).2 rfl

/-- C4: once enumeration has produced a first screen and its capture an
image, the buffer-reinterpretation step fails — and the command returns
the corresponding failure result — exactly when the raw buffer's byte
count differs from width×height×4. -/
theorem buffer_reinterpretation_iff_mismatch (env : Env) (screen : Screen)
    (rest : List Screen) (image : CapturedImage)
    (h1 : env.screensOutcome = .ok (screen :: rest))
    (h2 : screen.captureOutcome = .ok image) :
    (take_screenshot_internal env = .error "Failed to create image buffer" ↔
      image.raw.length ≠ image.width * image.height * 4) ∧
    (image.raw.length ≠ image.width * image.height * 4 →
      desktop_env_screenshot env =
        .ok { success := false, screenshot_data := none,
              error := some "Failed to create image buffer" }) := by
  by_cases hlen : image.raw.length = image.width * image.height * 4
  · have hbuf : imageBufferFromRaw image.width image.height image.raw =
        some image.raw := by
      unfold imageBufferFromRaw
      rw [if_pos hlen]
    have hts : take_screenshot_internal env =
        match env.pngEncode image.width image.height image.raw with
        | .error e => .error ("Failed to encode PNG: " ++ e)
        | .ok png_bytes => .ok (base64Encode png_bytes) := by
      simp only [take_screenshot_internal, h1, List.head?, h2, hbuf]
    constructor
    · constructor
      · intro habs
        rw [hts] at habs
        cases hp : env.pngEncode image.width image.height image.raw <;>
          simp only [hp] at habs
        · exact absurd (Except.error.inj habs) (png_error_ne_buffer_error _)
        · exact Except.noConfusion habs
      · intro habs
        exact absurd hlen habs
    · intro habs
      exact absurd hlen habs
  · have hbuf : imageBufferFromRaw image.width image.height image.raw =
        none := by
      unfold imageBufferFromRaw
      rw [if_neg hlen]
    have hts : take_screenshot_internal env =
        .error "Failed to create image buffer" := by
      simp only [take_screenshot_internal, h1, List.head?, h2, hbuf]
    refine ⟨⟨fun _ => hlen, fun _ => hts⟩, fun _ => ?_⟩
    simp only [desktop_env_screenshot, hts]

/-- Witness for C4 at a concrete environment whose capture reports a
1×1 frame with a 3-byte buffer (3 ≠ 1·1·4). -/
theorem buffer_reinterpretation_iff_mismatch_witness :
    take_screenshot_internal envMismatch =
      .error "Failed to create image buffer" ∧
    desktop_env_screenshot envMismatch =
      .ok { success := false, screenshot_data := none,
            error := some "Failed to create image buffer" } :=
  ⟨(buffer_reinterpretation_iff_mismatch envMismatch screenMismatch []
      { width := 1, height := 1, raw := [0, 0, 0] } rfl rfl).1.mpr (by decide),
   (buffer_reinterpretation_iff_mismatch envMismatch screenMismatch []
      { width := 1, height := 1, raw := [0, 0, 0] } rfl rfl).2 (by decide)⟩

/-- C5: whenever the pipeline reaches PNG encoding successfully, the
payload returned by `take_screenshot_internal` is exactly the standard
padded base64 encoding of the PNG byte stream, and base64-decoding that
payload yields exactly the original PNG bytes. -/
theorem screenshot_payload_base64_round_trip (env : Env) (screen : Screen)
    (rest : List Screen) (image : CapturedImage) (buf png : List Nat)
    (h1 : env.screensOutcome = .ok (screen :: rest))
    (h2 : screen.captureOutcome = .ok image)
    (h3 : imageBufferFromRaw image.width image.height image.raw = some buf)
    (h4 : env.pngEncode image.width image.height buf = .ok png)
    (h5 : ∀ b ∈ png, b < 256) :
    take_screenshot_internal env = .ok (base64Encode png) ∧
    base64Decode (base64Encode png) = some png := by
  constructor
  · simp only [take_screenshot_internal, h1, List.head?, h2, h3, h4]
  · exact base64_round_trip png h5

/-- Witness for C5 at a concrete environment whose codec emits the
four-byte stream `[137, 80, 78, 71]`. -/
theorem screenshot_payload_base64_round_trip_witness :
    take_screenshot_internal envOk = .ok (base64Encode [137, 80, 78, 71]) ∧
    base64Decode (base64Encode [137, 80, 78, 71]) = some [137, 80, 78, 71] :=
  screenshot_payload_base64_round_trip envOk screenOk []
    { width := 1, height := 1, raw := [1, 2, 3, 4] } [1, 2, 3, 4]
    [137, 80, 78, 71] rfl rfl rfl rfl (by decide)

/-- C6 counterexample: with a provider reporting a display of width and
height 0, `desktop_env_system_info` succeeds yet returns
`screen_width = 0`, which is not positive — the positivity part of the
claim is not enforced by the code. -/
theorem desktop_env_system_info_zero_width_cex :
    desktop_env_system_info envZero =
      .ok { platform := "linux", screen_width := 0, screen_height := 0 } ∧
    ¬ 0 < (0 : Nat) :=
  ⟨rfl, by decide⟩

/-- C6 amended: whenever `desktop_env_system_info` succeeds, the
returned width and height are exactly the first enumerated display's
reported dimensions (hence positive precisely when the provider reports
positive values), and the platform string is exactly
`std::env::consts::OS`, the compiled-for operating system's canonical
short name. -/
theorem desktop_env_system_info_first_display (env : Env) (screen : Screen)
    (rest : List Screen) (h : env.screensOutcome = .ok (screen :: rest)) :
    desktop_env_system_info env =
      .ok { platform := env.consts_OS,
            screen_width := screen.display_info.width,
            screen_height := screen.display_info.height } := by
  simp only [desktop_env_system_info, h, List.head?]

/-- Witness for the amended C6 at a concrete one-display
environment. -/
theorem desktop_env_system_info_first_display_witness :
    desktop_env_system_info envOk =
      .ok { platform := "linux", screen_width := 1, screen_height := 1 } :=
  desktop_env_system_info_first_display envOk screenOk [] rfl

/-- C7: on every platform other than macOS, both
`request_screen_recording_permission` and
`request_accessibility_permission` return `Ok(true)` unconditionally and
invoke no external process. -/
theorem non_macos_permissions_true_no_process (env : PermEnv)
    (h : env.target_os_macos = false) :
    request_screen_recording_permission env = (.ok true, []) ∧
    request_accessibility_permission env = (.ok true, []) := by
  unfold request_screen_recording_permission request_accessibility_permission
  rw [h]
  exact ⟨rfl, rfl⟩

/-- Witness for C7 at a concrete non-macOS environment. -/
theorem non_macos_permissions_true_no_process_witness :
    request_screen_recording_permission permEnvOther = (.ok true, []) ∧
    request_accessibility_permission permEnvOther = (.ok true, []) :=
  non_macos_permissions_true_no_process permEnvOther rfl

/-- C8: `desktop_env_init` always succeeds and is idempotent: from any
flag state it returns the fixed success string and leaves the flag true,
and a second call returns the same success and the same state, with no
additional observable effect. -/
theorem desktop_env_init_idempotent (s : Bool) :
    desktop_env_init s = (.ok "Desktop environment initialized", true) ∧
    desktop_env_init (desktop_env_init s).2 =
      (.ok "Desktop environment initialized", true) ∧
    desktop_env_init (desktop_env_init s).2 = desktop_env_init s :=
  ⟨rfl, rfl, rfl⟩

/-- C9: `desktop_env_status` returns the same fixed availability string
on every call, for any two flag states and also after a
`desktop_env_init` call — it never fails and leaks nothing about the
initialization state. -/
theorem desktop_env_status_state_independent (s1 s2 : Bool) :
    desktop_env_status s1 = desktop_env_status s2 ∧
    desktop_env_status s1 = .ok "Desktop environment is available" ∧
    desktop_env_status (desktop_env_init s1).2 = desktop_env_status s1 :=
  ⟨rfl, rfl, rfl⟩

/-- C10: neither permission command ever returns the boolean value
`false`: on every platform and for every shell-out outcome, any `Ok`
value carried by the result is `true` (a failed shell-out is reported as
an error, not as `false`). -/
theorem permissions_never_ok_false (env : PermEnv) :
    (request_screen_recording_permission env).1.toOption.getD true = true ∧
    (request_accessibility_permission env).1.toOption.getD true = true := by
  unfold request_screen_recording_permission request_accessibility_permission
  rcases env with ⟨mac, sp, op⟩
  cases mac
  · exact ⟨rfl, rfl⟩
  · constructor
    · cases sp with
      | error e => rfl
      | ok b => cases b <;> rfl
    · cases op with
      | error e => rfl
      | ok b => cases b <;> rfl

end Skygen
